import Mathlib

/-!
Verification development for the storage core of the Distributed-File-System
repository: the block allocator (src/src/core/block_manager.cpp), the inode
table (src/src/core/inode.cpp) and the WAL-backed transaction manager
(src/src/core/transaction_manager.cpp). Each C++ class is shallowly embedded
as a Lean structure, and each member function as a pure function that takes
the object state and returns the result together with the successor state.
C++ exceptions are modelled by an error value in an `Except`; the mutated
object state is returned alongside, because a thrown exception leaves the
C++ object in its current state. Machine integers are modelled as `Nat`
(the concrete values involved stay far below two to the thirty-two except
where a truncation is written out explicitly).
-/

namespace DFS

/-- Error kinds, one per exception class of include/utils/exceptions.h that
the embedded functions throw. The spec taxonomy names are:
`insufficientSpace` = OutOfSpace, `blockNotFound` = InvalidBlock,
`inodeNotFound` = InodeNotFound, `transactionNotFound` = TransactionNotFound,
`transactionAborted` = TransactionAborted. -/
inductive DfsError where
  | insufficientSpace
  | blockNotFound
  | inodeNotFound
  | transactionNotFound
  | transactionAborted
deriving DecidableEq, Repr

instance {e a : Type} [DecidableEq e] [DecidableEq a] :
    DecidableEq (Except e a) := fun x y =>
  match x, y with
  | .error u, .error v =>
    if h : u = v then isTrue (by rw [h])
    else isFalse (fun hc => h (Except.error.inj hc))
  | .error _, .ok _ => isFalse (fun hc => Except.noConfusion hc)
  | .ok _, .error _ => isFalse (fun hc => Except.noConfusion hc)
  | .ok u, .ok v =>
    if h : u = v then isTrue (by rw [h])
    else isFalse (fun hc => h (Except.ok.inj hc))

/-- First index `i` with `start <= i < start + fuel` whose bitmap bit is
`true` (free), scanning upward. This is the loop shape shared by
`BlockManager::find_next_free_block` and `InodeTable::allocate_inode`:
a plain for-loop over a half-open index range. Out-of-range reads yield
`false` (used), which the C++ code never performs on the states we quantify
over. -/
def findFreeInRange (bitmap : List Bool) : Nat → Nat → Option Nat
  | _, 0 => none
  | start, fuel + 1 =>
    if bitmap.getD start false then some start
    else findFreeInRange bitmap (start + 1) fuel

/-- BlockManager (src/src/core/block_manager.cpp). `block_bitmap` holds
`true` for a free block, `false` for a used one, exactly as the C++
`std::vector<bool> block_bitmap_`. -/
structure BlockManager where
  total_blocks : Nat
  block_size : Nat
  block_bitmap : List Bool
  next_free_block : Nat
deriving DecidableEq, Repr

/-- BlockManager::BlockManager: all blocks start free, block 0 is reserved
for the superblock and the hint starts at 1 when the device is non-empty. -/
def BlockManager.create (total_blocks block_size : Nat) : BlockManager :=
  let bitmap := List.replicate total_blocks true
  if total_blocks > 0 then
    { total_blocks := total_blocks, block_size := block_size,
      block_bitmap := bitmap.set 0 false, next_free_block := 1 }
  else
    { total_blocks := total_blocks, block_size := block_size,
      block_bitmap := bitmap, next_free_block := 0 }

/-- BlockManager::find_next_free_block: scan `[start, total_blocks)` and then
wrap around to `[0, start)`; `none` models the UINT32_MAX not-found value. -/
def BlockManager.find_next_free_block (bm : BlockManager) (start : Nat) : Option Nat :=
  match findFreeInRange bm.block_bitmap start (bm.total_blocks - start) with
  | some i => some i
  | none => findFreeInRange bm.block_bitmap 0 start

/-- BlockManager::allocate_block: find the first free block from the rotating
hint, mark it used, advance the hint; throw InsufficientSpaceException when
no block is free. -/
def BlockManager.allocate_block (bm : BlockManager) :
    Except DfsError Nat × BlockManager :=
  match bm.find_next_free_block bm.next_free_block with
  | none => (.error .insufficientSpace, bm)
  | some b =>
    (.ok b, { bm with block_bitmap := bm.block_bitmap.set b false,
                      next_free_block := (b + 1) % bm.total_blocks })

/-- The consecutive-run scan of BlockManager::allocate_blocks: walk
`total_blocks` steps from the hint with wrap-around, counting consecutive
free blocks and resetting the candidate start at every used block; return
the start of the first run of length `count`. `fuel` is the loop counter
`i` counting down from `total_blocks`. -/
def contigScan (bitmap : List Bool) (total count : Nat) :
    Nat → Nat → Nat → Nat → Option Nat
  | 0, _, _, _ => none
  | fuel + 1, current, start_block, consecutive =>
    if bitmap.getD current false then
      if consecutive + 1 = count then some start_block
      else contigScan bitmap total count fuel ((current + 1) % total)
            start_block (consecutive + 1)
    else
      contigScan bitmap total count fuel ((current + 1) % total)
        ((current + 1) % total) 0

/-- The individual-allocation fallback loop of BlockManager::allocate_blocks.
`acc` collects the blocks already marked in this call, most recent first
(the C++ push_back order is `acc.reverse`; the rollback marks the same set
of blocks free in either order). On failure every block of `acc` is marked
free again and InsufficientSpaceException is thrown. -/
def scatterLoop : Nat → BlockManager → List Nat →
    Except DfsError (List Nat) × BlockManager
  | 0, bm, acc => (.ok acc.reverse, bm)
  | n + 1, bm, acc =>
    match bm.find_next_free_block bm.next_free_block with
    | none =>
      (.error .insufficientSpace,
       { bm with block_bitmap :=
           acc.foldl (fun bmp b => bmp.set b true) bm.block_bitmap })
    | some b =>
      scatterLoop n
        { bm with block_bitmap := bm.block_bitmap.set b false,
                  next_free_block := (b + 1) % bm.total_blocks }
        (b :: acc)

/-- BlockManager::allocate_blocks: try a consecutive run first; when none
exists fall back to one-at-a-time allocation with rollback on failure. -/
def BlockManager.allocate_blocks (count : Nat) (bm : BlockManager) :
    Except DfsError (List Nat) × BlockManager :=
  if count = 0 then (.ok [], bm)
  else
    match contigScan bm.block_bitmap bm.total_blocks count bm.total_blocks
        bm.next_free_block bm.next_free_block 0 with
    | some start =>
      let ids := (List.range count).map (fun j => (start + j) % bm.total_blocks)
      (.ok ids,
        { bm with
            block_bitmap := ids.foldl (fun bmp b => bmp.set b false) bm.block_bitmap,
            next_free_block := (start + count) % bm.total_blocks })
    | none => scatterLoop count bm []

/-- BlockManager::deallocate_block: out-of-range throws BlockNotFoundException;
an already-free block is a warning-only no-op; otherwise the bit is cleared.
The C++ code has no special case for block 0. -/
def BlockManager.deallocate_block (block_id : Nat) (bm : BlockManager) :
    Except DfsError Unit × BlockManager :=
  if block_id ≥ bm.total_blocks then (.error .blockNotFound, bm)
  else if bm.block_bitmap.getD block_id false then (.ok (), bm)
  else (.ok (), { bm with block_bitmap := bm.block_bitmap.set block_id true })

/-- BlockManager::is_block_free: an out-of-range id reports `false`. -/
def BlockManager.is_block_free (bm : BlockManager) (block_id : Nat) : Bool :=
  if block_id ≥ bm.total_blocks then false
  else bm.block_bitmap.getD block_id false

/-- BlockManager::is_valid: the bitmap matches the geometry and block 0 is
reserved (not free) whenever the device has any block. -/
def BlockManager.is_valid (bm : BlockManager) : Bool :=
  if bm.block_bitmap.length ≠ bm.total_blocks then false
  else if bm.total_blocks > 0 && bm.block_bitmap.getD 0 false then false
  else true

/-- Inode record (src/src/core/inode.cpp, src/include/core/inode.h). Field
defaults are the Inode() default constructor: all counters zero,
replication_count 1, every block pointer 0. Only deallocate_inode touches
this record in the functions embedded here (it resets it to the default). -/
structure Inode where
  mode : Nat := 0
  uid : Nat := 0
  gid : Nat := 0
  size : Nat := 0
  blocks : Nat := 0
  atime : Nat := 0
  mtime : Nat := 0
  ctime : Nat := 0
  direct_blocks : List Nat := List.replicate 12 0
  indirect_block : Nat := 0
  double_indirect : Nat := 0
  triple_indirect : Nat := 0
  replication_count : Nat := 1
  checksum : Nat := 0
  link_count : Nat := 0
deriving DecidableEq, Repr

/-- InodeTable (src/src/core/inode.cpp). `free_inodes` holds `true` for a
free slot; the table capacity is `free_inodes.length` (the C++ code sizes
`inodes_` and `free_inodes_` identically and compares indices against
`free_inodes_.size()`). -/
structure InodeTable where
  inodes : List Inode
  free_inodes : List Bool
  next_free_inode : Nat
deriving DecidableEq, Repr

/-- InodeTable::InodeTable: every slot free, then slot 0 (invalid) and slot 1
(root) are reserved; the allocation hint starts at 1. -/
def InodeTable.create (max_inodes : Nat) : InodeTable :=
  let free0 := List.replicate max_inodes true
  let free1 := if max_inodes > 0 then free0.set 0 false else free0
  let free2 := if max_inodes > 1 then free1.set 1 false else free1
  { inodes := List.replicate max_inodes {}, free_inodes := free2,
    next_free_inode := 1 }

/-- InodeTable::allocate_inode: scan `[next_free_inode, capacity)`, then wrap
around scanning `[1, next_free_inode)`; mark the found slot used and advance
the hint; throw InsufficientSpaceException when both scans fail. The
wrap-around loop starts at index 1, but the first loop starts at the raw
hint value, which reaches 0 after the last slot is allocated. -/
def InodeTable.allocate_inode (t : InodeTable) :
    Except DfsError Nat × InodeTable :=
  let cap := t.free_inodes.length
  match findFreeInRange t.free_inodes t.next_free_inode (cap - t.next_free_inode) with
  | some i =>
    (.ok i, { t with free_inodes := t.free_inodes.set i false,
                     next_free_inode := (i + 1) % cap })
  | none =>
    match findFreeInRange t.free_inodes 1 (t.next_free_inode - 1) with
    | some i =>
      (.ok i, { t with free_inodes := t.free_inodes.set i false,
                       next_free_inode := (i + 1) % cap })
    | none => (.error .insufficientSpace, t)

/-- InodeTable::deallocate_inode: out-of-range throws InodeNotFoundException;
an already-free slot is a warning-only no-op; otherwise the bit is set free
and the inode record is cleared. The C++ code has no special case for
inode 0 or inode 1. -/
def InodeTable.deallocate_inode (inode_num : Nat) (t : InodeTable) :
    Except DfsError Unit × InodeTable :=
  if inode_num ≥ t.free_inodes.length then (.error .inodeNotFound, t)
  else if t.free_inodes.getD inode_num false then (.ok (), t)
  else (.ok (), { t with free_inodes := t.free_inodes.set inode_num true,
                         inodes := t.inodes.set inode_num {} })

/-- InodeTable::is_inode_free: an out-of-range id reports `false`. -/
def InodeTable.is_inode_free (t : InodeTable) (inode_num : Nat) : Bool :=
  if inode_num ≥ t.free_inodes.length then false
  else t.free_inodes.getD inode_num false

/-! ## WAL records and the transaction manager
(src/src/core/transaction_manager.cpp) -/

/-- Two to the thirty-two: the modulus of the uint32_t arithmetic in
LogEntry::update_checksum. -/
def U32 : Nat := 4294967296

/-- LogEntry: the WAL record. `old_data` and `new_data` are byte lists. -/
structure LogEntry where
  transaction_id : Nat
  operation_type : Nat
  inode_number : Nat
  block_number : Nat
  timestamp : Nat
  checksum : Nat
  old_data : List Nat := []
  new_data : List Nat := []
deriving DecidableEq, Repr

/-- One data byte of LogEntry::update_checksum: shift the running uint32_t
left by one, xor the byte in, and fold the CRC-32 polynomial 0x04C11DB7 in
when bit 31 is set. -/
def crcStep (c b : Nat) : Nat :=
  let t := ((c * 2) % U32) ^^^ b
  if t &&& 2147483648 ≠ 0 then t ^^^ 79764919 else t

/-- The checksum LogEntry::update_checksum computes: xor of the 32-bit
truncations of the header fields (low and high halves of the 64-bit fields),
then the CRC-style fold over old_data and new_data. The stored checksum
field is zeroed before the computation and is not an input to it. -/
def LogEntry.compute_checksum (e : LogEntry) : Nat :=
  let h := (e.transaction_id % U32) ^^^ (e.transaction_id / U32 % U32)
  let h := h ^^^ e.operation_type ^^^ e.inode_number ^^^ e.block_number
  let h := h ^^^ (e.timestamp % U32) ^^^ (e.timestamp / U32 % U32)
  let h := e.old_data.foldl crcStep h
  e.new_data.foldl crcStep h

/-- LogEntry::update_checksum as a record update. -/
def LogEntry.update_checksum (e : LogEntry) : LogEntry :=
  { e with checksum := e.compute_checksum }

/-- LogEntry::is_valid: the stored checksum matches the recomputed one. -/
def LogEntry.is_valid (e : LogEntry) : Bool :=
  e.checksum == e.compute_checksum

/-- Transaction (src/src/core/transaction_manager.cpp): the staged records
and the three state flags. `start_time` is omitted: none of the embedded
functions read it (expiry sweeping is wall-clock behaviour, out of scope). -/
structure Transaction where
  transaction_id : Nat
  log_entries : List LogEntry := []
  is_active : Bool := true
  is_committed : Bool := false
  is_aborted : Bool := false
deriving DecidableEq, Repr

/-- Lookup in an association list keyed by number: the std::unordered_map
find of the C++ code (keys are unique there). -/
def assocFind {α : Type} : List (Nat × α) → Nat → Option α
  | [], _ => none
  | (k, v) :: rest, key => if k = key then some v else assocFind rest key

/-- Erase one key from an association list: the std::unordered_map erase. -/
def assocErase {α : Type} : List (Nat × α) → Nat → List (Nat × α)
  | [], _ => []
  | (k, v) :: rest, key =>
    if k = key then rest else (k, v) :: assocErase rest key

/-- TransactionManager. `wal` is the sequence of records serialized to the
log file so far, every one of them flushed (write_log_entry serializes one
record and flushes the stream). I/O never fails in this embedding, so the
catch branch of commit_transaction (mark aborted, return false) is
unreachable and not modelled. -/
structure TransactionManager where
  next_transaction_id : Nat := 1
  active_transactions : List (Nat × Transaction) := []
  wal : List LogEntry := []
deriving DecidableEq, Repr

/-- TransactionManager::begin_transaction: fresh id, fresh ACTIVE transaction
inserted into the active map. -/
def TransactionManager.begin_transaction (tm : TransactionManager) :
    Nat × TransactionManager :=
  let tx_id := tm.next_transaction_id
  (tx_id,
   { tm with next_transaction_id := tm.next_transaction_id + 1,
             active_transactions :=
               (tx_id, { transaction_id := tx_id }) :: tm.active_transactions })

/-- TransactionManager::commit_transaction: unknown id throws
TransactionNotFoundException; an aborted transaction returns false (the
TransactionAborted failure); an already-committed one returns true; an
active one has its staged records appended to the WAL in staging order
(each record flushed by write_log_entry), is marked committed, and is
erased from the active map. No COMMIT marker record is written. -/
def TransactionManager.commit_transaction (tx_id : Nat)
    (tm : TransactionManager) : Except DfsError Bool × TransactionManager :=
  match assocFind tm.active_transactions tx_id with
  | none => (.error .transactionNotFound, tm)
  | some t =>
    if t.is_aborted then (.ok false, tm)
    else if t.is_committed then (.ok true, tm)
    else
      (.ok true,
       { tm with wal := tm.wal ++ t.log_entries,
                 active_transactions := assocErase tm.active_transactions tx_id })

/-- TransactionManager::rollback_transaction: unknown id throws
TransactionNotFoundException; a committed transaction returns false (the
AlreadyCommitted failure); an already-aborted one returns true without any
state change; an active one is marked aborted and erased from the active
map. No ABORT record is written. -/
def TransactionManager.rollback_transaction (tx_id : Nat)
    (tm : TransactionManager) : Except DfsError Bool × TransactionManager :=
  match assocFind tm.active_transactions tx_id with
  | none => (.error .transactionNotFound, tm)
  | some t =>
    if t.is_committed then (.ok false, tm)
    else if t.is_aborted then (.ok true, tm)
    else
      (.ok true,
       { tm with active_transactions := assocErase tm.active_transactions tx_id })

/-- TransactionManager::add_log_entry: unknown id throws
TransactionNotFoundException; an inactive transaction throws
TransactionAbortedException; otherwise the record gets its checksum updated
and is appended to the staged list. -/
def TransactionManager.add_log_entry (tx_id : Nat) (e : LogEntry)
    (tm : TransactionManager) : Except DfsError Unit × TransactionManager :=
  match assocFind tm.active_transactions tx_id with
  | none => (.error .transactionNotFound, tm)
  | some t =>
    if t.is_active = false then (.error .transactionAborted, tm)
    else
      (.ok (),
       { tm with active_transactions :=
           (tx_id, { t with log_entries := t.log_entries ++ [e.update_checksum] })
             :: assocErase tm.active_transactions tx_id })

/-- The loop body count of TransactionManager::replay_log_entries: each
deserialized record is checksum-checked; a valid one bumps the replayed
counter, an invalid one only logs a warning and the loop continues with the
next record. The loop performs no other state change (the application of a
record to the filesystem is a source comment, not code). -/
def replayCount : List LogEntry → Nat
  | [] => 0
  | e :: rest => (if e.is_valid then 1 else 0) + replayCount rest

/-- A minimal filesystem state for recovery claims: block number to block
contents. The C++ replay loop holds no reference to any such state; the
embedding passes one through explicitly to make «applies nothing» statable. -/
structure FileSystemState where
  blockData : List (Nat × List Nat)
deriving DecidableEq, Repr

/-- Contents of one block. -/
def FileSystemState.getBlock (fs : FileSystemState) (n : Nat) :
    Option (List Nat) :=
  assocFind fs.blockData n

/-- Store contents into one block. -/
def FileSystemState.setBlock (fs : FileSystemState) (n : Nat)
    (d : List Nat) : FileSystemState :=
  { blockData := (n, d) :: assocErase fs.blockData n }

/-- TransactionManager::recover, which only calls replay_log_entries: the
WAL is scanned once, each record is validated and counted when its checksum
matches, and the filesystem state is left untouched. -/
def TransactionManager.recover (fs : FileSystemState) (log : List LogEntry) :
    FileSystemState × Nat :=
  (fs, replayCount log)

/-! ## The recovery protocol as the spec words it

The following definitions follow the wording of the spec (section 4.7,
Recovery protocol) and exist only to be compared against the code-side
`TransactionManager.recover`. The op-type codes follow the order in which
the spec enumerates the enum (BEGIN = 0, CREATE = 1, WRITE_BLOCK = 2, ...,
COMMIT = 9, ABORT = 10); the C++ header that declares the enum is not among
the source files. -/

/-- Spec op code for WRITE_BLOCK. -/
def OP_WRITE_BLOCK : Nat := 2

/-- Spec op code for COMMIT. -/
def OP_COMMIT : Nat := 9

/-- Spec op code for ABORT. -/
def OP_ABORT : Nat := 10

/-- Spec-side application of one staged record during replay: a WRITE_BLOCK
restores new_data into its block. The other op kinds act on structures
(bitmaps, directories) that the counterexample does not need; they are
modelled as the identity here. -/
def applySpecRecord (fs : FileSystemState) (e : LogEntry) : FileSystemState :=
  if e.operation_type = OP_WRITE_BLOCK then fs.setBlock e.block_number e.new_data
  else fs

/-- Append a record to the per-transaction accumulator. -/
def pendingAppend (p : List (Nat × List LogEntry)) (key : Nat)
    (e : LogEntry) : List (Nat × List LogEntry) :=
  match assocFind p key with
  | some l => (key, l ++ [e]) :: assocErase p key
  | none => p ++ [(key, [e])]

/-- Spec-side recovery scan: accumulate records per transaction id; on a
COMMIT apply the staged records of that transaction in order; on an ABORT
discard them; stop at the first record whose checksum fails; at the end of
the log, drop every accumulation without a terminator. -/
def specRecoverAux : FileSystemState → List (Nat × List LogEntry) →
    List LogEntry → FileSystemState
  | fs, _, [] => fs
  | fs, pending, e :: rest =>
    if e.is_valid then
      if e.operation_type = OP_COMMIT then
        specRecoverAux
          (((assocFind pending e.transaction_id).getD []).foldl applySpecRecord fs)
          (assocErase pending e.transaction_id) rest
      else if e.operation_type = OP_ABORT then
        specRecoverAux fs (assocErase pending e.transaction_id) rest
      else
        specRecoverAux fs (pendingAppend pending e.transaction_id e) rest
    else fs

/-- Spec-side recovery from an empty accumulator. -/
def specRecover (fs : FileSystemState) (log : List LogEntry) :
    FileSystemState :=
  specRecoverAux fs [] log

/-! ## Helper predicates and concrete states used by the claim theorems -/

/-- Whether block `j` is free in the bitmap (out of range reads as used). -/
def blockFree (bm : BlockManager) (j : Nat) : Bool :=
  bm.block_bitmap.getD j false

/-- Position of index `i` in the rotated scan order that starts at `hint`
and wraps at `total`: the indices `hint, hint+1, ..., total-1, 0, ...,
hint-1` get positions `0, 1, 2, ...`. -/
def scanPos (hint total i : Nat) : Nat :=
  if hint ≤ i then i - hint else i + (total - hint)

/-- A staged WRITE_BLOCK record for transaction 1 over block 1, with a valid
checksum. -/
def eC1 : LogEntry :=
  LogEntry.update_checksum
    { transaction_id := 1, operation_type := OP_WRITE_BLOCK, inode_number := 0,
      block_number := 1, timestamp := 0, checksum := 0,
      old_data := [0], new_data := [7] }

/-- An ACTIVE transaction with one staged record. -/
def txC1 : Transaction := { transaction_id := 1, log_entries := [eC1] }

/-- A manager holding exactly the active transaction `txC1` and an empty WAL. -/
def tmC1 : TransactionManager :=
  { next_transaction_id := 2, active_transactions := [(1, txC1)], wal := [] }

/-- A valid WRITE_BLOCK record of transaction 1: block 1 gets contents [1]. -/
def eWBC2 : LogEntry :=
  LogEntry.update_checksum
    { transaction_id := 1, operation_type := OP_WRITE_BLOCK, inode_number := 0,
      block_number := 1, timestamp := 0, checksum := 0,
      old_data := [0], new_data := [1] }

/-- A valid COMMIT record of transaction 1. -/
def eCOMMITC2 : LogEntry :=
  LogEntry.update_checksum
    { transaction_id := 1, operation_type := OP_COMMIT, inode_number := 0,
      block_number := 0, timestamp := 0, checksum := 0 }

/-- Pre-recovery filesystem state: block 1 holds [0]. -/
def fsC2 : FileSystemState := { blockData := [(1, [0])] }

/-- A WAL whose transaction 1 is fully committed. -/
def logC2 : List LogEntry := [eWBC2, eCOMMITC2]

/-- A record whose stored checksum (1) differs from its computed one. -/
def eBadC3 : LogEntry :=
  { transaction_id := 5, operation_type := OP_WRITE_BLOCK, inode_number := 0,
    block_number := 3, timestamp := 0, checksum := 1 }

/-- A record with a valid checksum, placed after the corrupt one. -/
def eGoodC3 : LogEntry :=
  LogEntry.update_checksum
    { transaction_id := 6, operation_type := OP_WRITE_BLOCK, inode_number := 0,
      block_number := 4, timestamp := 0, checksum := 0, new_data := [9] }

/-- A WAL whose first record fails its checksum and whose second is valid. -/
def logC3 : List LogEntry := [eBadC3, eGoodC3]

/-- A transaction that has reached the COMMITTED state. -/
def txCommitted : Transaction :=
  { transaction_id := 1, is_active := false, is_committed := true }

/-- A transaction that has reached the ABORTED state. -/
def txAborted : Transaction :=
  { transaction_id := 2, is_active := false, is_aborted := true }

/-- A manager still holding one committed and one aborted transaction in its
active map. -/
def tmTerminal : TransactionManager :=
  { next_transaction_id := 3,
    active_transactions := [(1, txCommitted), (2, txAborted)], wal := [] }

/-- A 3-block manager where only block 1 is free and the hint is 1: a
2-block request has no consecutive run and the scattered path fails after
marking block 1. -/
def bmC7 : BlockManager :=
  { total_blocks := 3, block_size := 512,
    block_bitmap := [false, true, false], next_free_block := 1 }

/-! ## Helper lemmas -/

/-- A list is unchanged by writing `true` at an index that already reads
`true`. -/
theorem set_true_of_getD_true {l : List Bool} {n : Nat}
    (h : l.getD n false = true) : l.set n true = l := by
  induction l generalizing n with
  | nil => rfl
  | cons a rest ih =>
    cases n with
    | zero =>
      simp only [List.getD_cons_zero] at h
      simp [List.set, h]
    | succ m =>
      simp only [List.getD_cons_succ] at h
      simp [List.set, ih h]

/-- When the range scan returns an index, that index lies in the scanned
range, its bit reads free, and every earlier index of the range reads used. -/
theorem findFreeInRange_some {bitmap : List Bool} {s n i : Nat}
    (h : findFreeInRange bitmap s n = some i) :
    s ≤ i ∧ i < s + n ∧ bitmap.getD i false = true
    ∧ ∀ j, s ≤ j → j < i → bitmap.getD j false = false := by
  induction n generalizing s with
  | zero => simp [findFreeInRange] at h
  | succ n ih =>
    rw [findFreeInRange] at h
    by_cases hb : bitmap.getD s false = true
    · rw [if_pos hb] at h
      injection h with h
      subst h
      exact ⟨Nat.le_refl s, by omega, hb, fun j hj1 hj2 => absurd hj2 (by omega)⟩
    · rw [if_neg hb] at h
      obtain ⟨h1, h2, h3, h4⟩ := ih h
      refine ⟨by omega, by omega, h3, ?_⟩
      intro j hj1 hj2
      by_cases hjs : j = s
      · subst hjs; exact Bool.eq_false_iff.mpr hb
      · exact h4 j (by omega) hj2

/-- When the range scan fails, every index of the range reads used. -/
theorem findFreeInRange_none {bitmap : List Bool} {s n : Nat}
    (h : findFreeInRange bitmap s n = none) :
    ∀ j, s ≤ j → j < s + n → bitmap.getD j false = false := by
  induction n generalizing s with
  | zero => intro j h1 h2; omega
  | succ n ih =>
    rw [findFreeInRange] at h
    by_cases hb : bitmap.getD s false = true
    · rw [if_pos hb] at h; cases h
    · rw [if_neg hb] at h
      intro j h1 h2
      by_cases hjs : j = s
      · subst hjs; exact Bool.eq_false_iff.mpr hb
      · exact ih h j (by omega) (by omega)

/-- find_next_free_block returns a free in-range block that comes no later
in the rotated scan order starting at `s` than any free block. -/
theorem find_next_free_block_some (bm : BlockManager) (s b : Nat)
    (hs : s ≤ bm.total_blocks)
    (h : bm.find_next_free_block s = some b) :
    blockFree bm b = true ∧ b < bm.total_blocks
    ∧ ∀ j, j < bm.total_blocks → blockFree bm j = true →
        scanPos s bm.total_blocks b ≤ scanPos s bm.total_blocks j := by
  rw [BlockManager.find_next_free_block] at h
  cases h1 : findFreeInRange bm.block_bitmap s (bm.total_blocks - s) with
  | some i =>
    rw [h1] at h
    have hib : some i = some b := h
    injection hib with hib
    obtain ⟨hi1, hi2, hi3, hi4⟩ := findFreeInRange_some h1
    rw [← hib]
    refine ⟨hi3, by omega, ?_⟩
    intro j hj hjf
    unfold scanPos
    by_cases hsj : s ≤ j
    · rw [if_pos hsj, if_pos hi1]
      by_cases hjb : j < i
      · exfalso
        have hused := hi4 j hsj hjb
        rw [blockFree, hused] at hjf
        cases hjf
      · omega
    · rw [if_neg hsj, if_pos hi1]
      omega
  | none =>
    rw [h1] at h
    have h2 : findFreeInRange bm.block_bitmap 0 s = some b := h
    obtain ⟨hb1, hb2, hb3, hb4⟩ := findFreeInRange_some h2
    have hall := findFreeInRange_none h1
    refine ⟨hb3, by omega, ?_⟩
    intro j hj hjf
    unfold scanPos
    have hbs : b < s := by omega
    by_cases hsj : s ≤ j
    · exfalso
      have hused := hall j hsj (by omega)
      rw [blockFree, hused] at hjf
      cases hjf
    · rw [if_neg hsj, if_neg (by omega : ¬ s ≤ b)]
      by_cases hjb : j < b
      · exfalso
        have hused := hb4 j (by omega) hjb
        rw [blockFree, hused] at hjf
        cases hjf
      · omega

/-- When find_next_free_block fails, every in-range block reads used. -/
theorem find_next_free_block_none (bm : BlockManager) (s : Nat)
    (hs : s ≤ bm.total_blocks)
    (h : bm.find_next_free_block s = none) :
    ∀ j, j < bm.total_blocks → blockFree bm j = false := by
  rw [BlockManager.find_next_free_block] at h
  cases h1 : findFreeInRange bm.block_bitmap s (bm.total_blocks - s) with
  | some i =>
    rw [h1] at h
    have h2 : some i = (none : Option Nat) := h
    cases h2
  | none =>
    rw [h1] at h
    have h2 : findFreeInRange bm.block_bitmap 0 s = none := h
    intro j hj
    by_cases hsj : s ≤ j
    · exact findFreeInRange_none h1 j hsj (by omega)
    · exact findFreeInRange_none h2 j (by omega) (by omega)

/-- When every in-range block reads used, find_next_free_block fails. -/
theorem find_next_free_block_eq_none (bm : BlockManager) (s : Nat)
    (hs : s ≤ bm.total_blocks)
    (hall : ∀ j, j < bm.total_blocks → blockFree bm j = false) :
    bm.find_next_free_block s = none := by
  cases h : bm.find_next_free_block s with
  | none => rfl
  | some b =>
    obtain ⟨hb1, hb2, -⟩ := find_next_free_block_some bm s b hs h
    rw [hall b hb2] at hb1
    cases hb1

/-- A block returned by find_next_free_block reads free in the bitmap
(no bound on the start index needed). -/
theorem find_next_free_block_free (bm : BlockManager) (s b : Nat)
    (h : bm.find_next_free_block s = some b) :
    bm.block_bitmap.getD b false = true := by
  rw [BlockManager.find_next_free_block] at h
  cases h1 : findFreeInRange bm.block_bitmap s (bm.total_blocks - s) with
  | some i =>
    rw [h1] at h
    have hib : some i = some b := h
    injection hib with hib
    rw [← hib]
    exact (findFreeInRange_some h1).2.2.1
  | none =>
    rw [h1] at h
    have h2 : findFreeInRange bm.block_bitmap 0 s = some b := h
    exact (findFreeInRange_some h2).2.2.1

/-- The scattered-allocation loop, on failure, ends with the bitmap equal to
the entry bitmap with every block of `acc` marked free again: the rollback
undoes exactly the marks accumulated in `acc`. -/
theorem scatterLoop_error_restores (n : Nat) :
    ∀ (bm : BlockManager) (acc : List Nat) (e : DfsError),
    (scatterLoop n bm acc).1 = .error e →
    e = .insufficientSpace
    ∧ (scatterLoop n bm acc).2.block_bitmap
        = acc.foldl (fun bmp b => bmp.set b true) bm.block_bitmap := by
  induction n with
  | zero =>
    intro bm acc e h
    rw [scatterLoop] at h
    cases h
  | succ n ih =>
    intro bm acc e h
    cases hf : bm.find_next_free_block bm.next_free_block with
    | none =>
      have heq : scatterLoop (n + 1) bm acc
          = (.error .insufficientSpace,
             { bm with block_bitmap :=
                 acc.foldl (fun bmp b => bmp.set b true) bm.block_bitmap }) := by
        rw [scatterLoop, hf]
      rw [heq] at h
      have h2 : (Except.error DfsError.insufficientSpace
          : Except DfsError (List Nat)) = .error e := h
      injection h2 with h2
      rw [heq]
      exact ⟨h2.symm, rfl⟩
    | some b =>
      have heq : scatterLoop (n + 1) bm acc
          = scatterLoop n
              { bm with block_bitmap := bm.block_bitmap.set b false,
                        next_free_block := (b + 1) % bm.total_blocks }
              (b :: acc) := by
        rw [scatterLoop, hf]
      rw [heq] at h
      obtain ⟨he, hbit⟩ := ih _ _ _ h
      refine ⟨he, ?_⟩
      rw [heq, hbit]
      simp only [List.foldl_cons]
      rw [List.set_set, set_true_of_getD_true (find_next_free_block_free bm _ b hf)]

/-- replayCount counts exactly the checksum-valid records of the log. -/
theorem replayCount_eq_filter_length (log : List LogEntry) :
    replayCount log = (log.filter (fun e => e.is_valid)).length := by
  induction log with
  | nil => rfl
  | cons e rest ih =>
    by_cases h : e.is_valid <;>
      simp [replayCount, List.filter_cons, h, ih, Nat.add_comm]

/-- A key that appears in no pair of the association list is not found. -/
theorem assocFind_eq_none_of_not_mem {α : Type} (l : List (Nat × α)) (k : Nat)
    (h : k ∉ l.map Prod.fst) : assocFind l k = none := by
  induction l with
  | nil => rfl
  | cons p rest ih =>
    obtain ⟨k0, v0⟩ := p
    simp only [List.map_cons, List.mem_cons] at h
    push_neg at h
    have hk : ¬ k0 = k := fun hc => h.1 hc.symm
    simp [assocFind, hk, ih h.2]

/-- Erasing a key from an association list with pairwise-distinct keys makes
that key unfindable. -/
theorem assocFind_assocErase {α : Type} (l : List (Nat × α)) (k : Nat)
    (h : (l.map Prod.fst).Nodup) : assocFind (assocErase l k) k = none := by
  induction l with
  | nil => rfl
  | cons p rest ih =>
    obtain ⟨k0, v0⟩ := p
    simp only [List.map_cons, List.nodup_cons] at h
    by_cases hk : k0 = k
    · subst hk
      simpa [assocErase] using assocFind_eq_none_of_not_mem rest k0 h.1
    · simp [assocErase, hk, assocFind, ih h.2]

/-! ## Claim theorems -/

/-- Claim C4 (confirmed). commit_transaction on a transaction that the
active map still holds in a terminal state: when the transaction is aborted
the call fails, returning false, the TransactionAborted failure of the spec
taxonomy (the bool-returning C++ function signals the failure kind by its
false return, not by an exception); when it is committed (and not aborted,
the flag checked first) the call returns success. Both calls leave the
manager unchanged. -/
theorem commit_transaction_idempotent_on_terminal (tm : TransactionManager)
    (tx_id : Nat) (t : Transaction)
    (hfind : assocFind tm.active_transactions tx_id = some t) :
    (t.is_aborted = true →
      tm.commit_transaction tx_id = (.ok false, tm))
  ∧ (t.is_aborted = false → t.is_committed = true →
      tm.commit_transaction tx_id = (.ok true, tm)) := by
  constructor
  · intro hab
    simp [TransactionManager.commit_transaction, hfind, hab]
  · intro hab hcom
    simp [TransactionManager.commit_transaction, hfind, hab, hcom]

/-- Witness for C4 at a concrete manager holding a committed transaction
(id 1) and an aborted one (id 2). -/
theorem commit_transaction_idempotent_on_terminal_witness :
    tmTerminal.commit_transaction 1 = (.ok true, tmTerminal)
  ∧ tmTerminal.commit_transaction 2 = (.ok false, tmTerminal) :=
  ⟨(commit_transaction_idempotent_on_terminal tmTerminal 1 txCommitted
      (by decide)).2 (by decide) (by decide),
   (commit_transaction_idempotent_on_terminal tmTerminal 2 txAborted
      (by decide)).1 (by decide)⟩

/-- Claim C5 (confirmed). rollback_transaction on a transaction that the
active map still holds in a terminal state: when the transaction is
committed the call fails, returning false, the AlreadyCommitted failure of
the spec taxonomy; when it is aborted (and not committed, the flag checked
first) the call returns success. Both calls leave the manager unchanged, so
the aborted case is a success no-op. -/
theorem rollback_transaction_terminal_cases (tm : TransactionManager)
    (tx_id : Nat) (t : Transaction)
    (hfind : assocFind tm.active_transactions tx_id = some t) :
    (t.is_committed = true →
      tm.rollback_transaction tx_id = (.ok false, tm))
  ∧ (t.is_committed = false → t.is_aborted = true →
      tm.rollback_transaction tx_id = (.ok true, tm)) := by
  constructor
  · intro hcom
    simp [TransactionManager.rollback_transaction, hfind, hcom]
  · intro hcom hab
    simp [TransactionManager.rollback_transaction, hfind, hcom, hab]

/-- Witness for C5 at the same concrete manager as the C4 witness. -/
theorem rollback_transaction_terminal_cases_witness :
    tmTerminal.rollback_transaction 1 = (.ok false, tmTerminal)
  ∧ tmTerminal.rollback_transaction 2 = (.ok true, tmTerminal) :=
  ⟨(rollback_transaction_terminal_cases tmTerminal 1 txCommitted
      (by decide)).1 (by decide),
   (rollback_transaction_terminal_cases tmTerminal 2 txAborted
      (by decide)).2 (by decide) (by decide)⟩

/-- Claim C8 (code_bug evidence). On a fresh 8-block manager,
deallocate_block(8) fails InvalidBlock (BlockNotFoundException) and leaves
the manager untouched, as the claim says; but deallocate_block(0), which the
claim says must fail the same way, instead returns success, marks the
reserved superblock block 0 free, and leaves the manager in a state that the
managers own is_valid check rejects. -/
theorem deallocate_block_zero_not_rejected :
    ((BlockManager.create 8 512).deallocate_block 8).1 = .error .blockNotFound
  ∧ ((BlockManager.create 8 512).deallocate_block 8).2 = BlockManager.create 8 512
  ∧ ((BlockManager.create 8 512).deallocate_block 0).1 = .ok ()
  ∧ (((BlockManager.create 8 512).deallocate_block 0).2).block_bitmap.getD 0 false = true
  ∧ (((BlockManager.create 8 512).deallocate_block 0).2).is_valid = false := by
  decide

/-- Claim C9 (code_bug evidence). On a fresh 4-slot table, inode 0 starts
reserved, but deallocate_inode(0) succeeds and marks inode 0 free; after
the two remaining slots are allocated, the very next allocate_inode returns
inode 0. So inode 0 is not permanently reserved under allocate/deallocate
sequences. -/
theorem inode_zero_not_permanently_reserved :
    (InodeTable.create 4).is_inode_free 0 = false
  ∧ ((InodeTable.create 4).deallocate_inode 0).1 = .ok ()
  ∧ (((InodeTable.create 4).deallocate_inode 0).2).is_inode_free 0 = true
  ∧ (((((InodeTable.create 4).deallocate_inode 0).2).allocate_inode).1 = .ok 2)
  ∧ ((((((InodeTable.create 4).deallocate_inode 0).2).allocate_inode).2.allocate_inode).1 = .ok 3)
  ∧ (((((((InodeTable.create 4).deallocate_inode 0).2).allocate_inode).2.allocate_inode).2.allocate_inode).1 = .ok 0) := by
  decide

/-- Claim C10 (confirmed). An id at or beyond the configured capacity is
reported not free by both queries, with no error raised: the same answer an
allocated in-range id gets. -/
theorem out_of_range_ids_report_not_free (bm : BlockManager) (t : InodeTable)
    (bid iid : Nat) (hb : bid ≥ bm.total_blocks)
    (hi : iid ≥ t.free_inodes.length) :
    bm.is_block_free bid = false ∧ t.is_inode_free iid = false := by
  constructor
  · simp [BlockManager.is_block_free, hb]
  · simp [InodeTable.is_inode_free, hi]

/-- Witness for C10 at a 4-block manager with id 7 and a 4-slot table with
id 9. -/
theorem out_of_range_ids_report_not_free_witness :
    (BlockManager.create 4 512).is_block_free 7 = false
  ∧ (InodeTable.create 4).is_inode_free 9 = false :=
  out_of_range_ids_report_not_free (BlockManager.create 4 512)
    (InodeTable.create 4) 7 9 (by decide) (by decide)

/-- Claim C2, as stated, fails at a concrete input: the WAL `logC2` stages a
WRITE_BLOCK of transaction 1 that sets block 1 to [1] and then carries a
COMMIT record of the same transaction, yet the code-side recovery leaves
block 1 at its pre-recovery contents [0]; the spec-side replay of the same
log produces [1]. -/
theorem recover_does_not_apply_committed_records :
    (TransactionManager.recover fsC2 logC2).1.getBlock 1 = some [0]
  ∧ (specRecover fsC2 logC2).getBlock 1 = some [1]
  ∧ (TransactionManager.recover fsC2 logC2).1 ≠ specRecover fsC2 logC2 := by
  decide

/-- Claim C2 (amended). recover() scans the WAL and counts exactly the
records whose checksum validates; it applies no record to the filesystem
state, whether or not a COMMIT or ABORT terminator is present, so in
particular no effect of an unterminated transaction is ever applied. -/
theorem recover_leaves_state_and_counts_valid (fs : FileSystemState)
    (log : List LogEntry) :
    (TransactionManager.recover fs log).1 = fs
  ∧ (TransactionManager.recover fs log).2
      = (log.filter (fun e => e.is_valid)).length :=
  ⟨rfl, replayCount_eq_filter_length log⟩

/-- Claim C3, as stated, fails at a concrete input: in the WAL `logC3` the
first record fails its checksum, so the claim discards it and everything
after it (the truncated log replays 0 records), yet the code replays the
valid second record (count 1): the scan is not truncated at the corrupt
record. -/
theorem invalid_record_does_not_truncate :
    eBadC3.is_valid = false
  ∧ replayCount (logC3.takeWhile (fun e => e.is_valid)) = 0
  ∧ replayCount logC3 = 1 := by
  decide

/-- Claim C3 (amended). A record whose checksum fails to validate is skipped
with a warning and contributes nothing, but the log is not truncated there:
every record after it is still scanned and replayed as usual. -/
theorem replay_skips_invalid_and_continues (l1 l2 : List LogEntry)
    (e : LogEntry) (h : e.is_valid = false) :
    replayCount (l1 ++ e :: l2) = replayCount l1 + replayCount l2 := by
  induction l1 with
  | nil => simp [replayCount, h]
  | cons a rest ih =>
    show (if a.is_valid then 1 else 0) + replayCount (rest ++ e :: l2)
        = ((if a.is_valid then 1 else 0) + replayCount rest) + replayCount l2
    rw [ih]
    omega

/-- Witness for the amended C3 at the concrete log of the counterexample. -/
theorem replay_skips_invalid_and_continues_witness :
    replayCount ([] ++ eBadC3 :: [eGoodC3])
      = replayCount [] + replayCount [eGoodC3] :=
  replay_skips_invalid_and_continues [] [eGoodC3] eBadC3 (by decide)

/-- Claim C1, as stated, fails at a concrete input: committing the ACTIVE
transaction 1 of `tmC1`, which has one staged record, appends exactly that
record to the WAL; no COMMIT record carrying transaction id 1 follows the
staged records on the log. -/
theorem commit_writes_no_commit_record :
    ¬ ∃ c : LogEntry,
        (tmC1.commit_transaction 1).2.wal
          = tmC1.wal ++ txC1.log_entries ++ [c]
        ∧ c.transaction_id = 1 := by
  rintro ⟨c, hc, -⟩
  have hlen : (tmC1.commit_transaction 1).2.wal.length = 1 := by decide
  rw [hc] at hlen
  simp [tmC1, txC1] at hlen

/-- Claim C1 (amended). For a transaction the active map holds with neither
terminal flag set (the ACTIVE state), commit_transaction appends exactly the
staged records to the WAL, in staging order, each one flushed as it is
written; it then marks the transaction committed, removes it from the
active map, and returns success. No COMMIT marker record is written; the
flush happens per record inside write_log_entry rather than once at the
end. -/
theorem commit_appends_staged_records_and_removes (tm : TransactionManager)
    (tx_id : Nat) (t : Transaction)
    (hfind : assocFind tm.active_transactions tx_id = some t)
    (hnodup : (tm.active_transactions.map Prod.fst).Nodup)
    (hab : t.is_aborted = false) (hcom : t.is_committed = false) :
    (tm.commit_transaction tx_id).1 = .ok true
  ∧ (tm.commit_transaction tx_id).2.wal = tm.wal ++ t.log_entries
  ∧ assocFind (tm.commit_transaction tx_id).2.active_transactions tx_id = none := by
  simp only [TransactionManager.commit_transaction, hfind, hab, hcom,
    Bool.false_eq_true, if_false]
  exact ⟨trivial, trivial, assocFind_assocErase tm.active_transactions tx_id hnodup⟩

/-- Witness for the amended C1 at the concrete manager `tmC1`. -/
theorem commit_appends_staged_records_and_removes_witness :
    (tmC1.commit_transaction 1).1 = .ok true
  ∧ (tmC1.commit_transaction 1).2.wal = tmC1.wal ++ txC1.log_entries
  ∧ assocFind (tmC1.commit_transaction 1).2.active_transactions 1 = none :=
  commit_appends_staged_records_and_removes tmC1 1 txC1 (by decide)
    (by decide) (by decide) (by decide)

/-- Claim C6 (confirmed). On any state satisfying the hint invariant the
constructor establishes and every mutation preserves (hint at most
total_blocks), allocate_block: when it succeeds, the returned block is free,
in range, and comes no later in the rotated scan order starting at the hint
than any other free block (it is the first free block found scanning from
the hint with wrap-around), and the successor state is exactly the old one
with that block marked used and the hint advanced to (chosen + 1) mod
total_blocks; it fails, with OutOfSpace (InsufficientSpaceException), if
and only if no block is free, and then the whole state, bitmap included, is
unchanged. -/
theorem allocate_block_first_free_from_hint (bm : BlockManager)
    (hhint : bm.next_free_block ≤ bm.total_blocks) :
    (∀ b, (bm.allocate_block).1 = .ok b →
        blockFree bm b = true
      ∧ b < bm.total_blocks
      ∧ (∀ j, j < bm.total_blocks → blockFree bm j = true →
          scanPos bm.next_free_block bm.total_blocks b
            ≤ scanPos bm.next_free_block bm.total_blocks j)
      ∧ (bm.allocate_block).2 =
          { bm with block_bitmap := bm.block_bitmap.set b false,
                    next_free_block := (b + 1) % bm.total_blocks })
  ∧ ((bm.allocate_block).1 = .error .insufficientSpace
      ↔ ∀ j, j < bm.total_blocks → blockFree bm j = false)
  ∧ ((∀ j, j < bm.total_blocks → blockFree bm j = false) →
      (bm.allocate_block).2 = bm) := by
  cases hf : bm.find_next_free_block bm.next_free_block with
  | some b0 =>
    obtain ⟨h1, h2, h3⟩ := find_next_free_block_some bm _ b0 hhint hf
    have hres : bm.allocate_block
        = (.ok b0, { bm with block_bitmap := bm.block_bitmap.set b0 false,
                             next_free_block := (b0 + 1) % bm.total_blocks }) := by
      rw [BlockManager.allocate_block, hf]
    refine ⟨?_, ?_, ?_⟩
    · intro b hb
      rw [hres] at hb
      have hb2 : (Except.ok b0 : Except DfsError Nat) = .ok b := hb
      injection hb2 with hb2
      subst hb2
      exact ⟨h1, h2, h3, by rw [hres]⟩
    · constructor
      · intro he
        rw [hres] at he
        have he2 : (Except.ok b0 : Except DfsError Nat) = .error .insufficientSpace := he
        cases he2
      · intro hall
        have hn := find_next_free_block_eq_none bm bm.next_free_block hhint hall
        rw [hf] at hn
        cases hn
    · intro hall
      have hn := find_next_free_block_eq_none bm bm.next_free_block hhint hall
      rw [hf] at hn
      cases hn
  | none =>
    have hres : bm.allocate_block = (.error .insufficientSpace, bm) := by
      rw [BlockManager.allocate_block, hf]
    refine ⟨?_, ?_, ?_⟩
    · intro b hb
      rw [hres] at hb
      have hb2 : (Except.error .insufficientSpace : Except DfsError Nat) = .ok b := hb
      cases hb2
    · exact ⟨fun _ => find_next_free_block_none bm _ hhint hf, fun _ => by rw [hres]⟩
    · intro _
      rw [hres]

/-- Witness for C6 on a fresh 4-block manager, whose scan from hint 1 finds
block 1 free and advances the hint to 2. -/
theorem allocate_block_first_free_from_hint_witness :
    blockFree (BlockManager.create 4 512) 1 = true
  ∧ ((BlockManager.create 4 512).allocate_block).2 =
      { BlockManager.create 4 512 with
          block_bitmap := (BlockManager.create 4 512).block_bitmap.set 1 false,
          next_free_block := (1 + 1) % (BlockManager.create 4 512).total_blocks } := by
  have h := allocate_block_first_free_from_hint (BlockManager.create 4 512) (by decide)
  have h1 := h.1 1 (by decide)
  exact ⟨h1.1, h1.2.2.2⟩

/-- Claim C7 (confirmed). Whenever allocate_blocks fails, the failure is
OutOfSpace from the scattered fallback path (the zero-count and
consecutive-run paths cannot fail), and at return the bitmap, and so the
set of free blocks, equals the bitmap at entry: every block marked during
the call was unmarked again before the throw. -/
theorem scattered_failure_restores_free_set (count : Nat) (bm : BlockManager)
    (e : DfsError)
    (h : (BlockManager.allocate_blocks count bm).1 = .error e) :
    e = .insufficientSpace
    ∧ (BlockManager.allocate_blocks count bm).2.block_bitmap = bm.block_bitmap := by
  by_cases hc : count = 0
  · exfalso
    subst hc
    have h2 : (Except.ok ([] : List Nat) : Except DfsError (List Nat)) = .error e := h
    cases h2
  · cases hs : contigScan bm.block_bitmap bm.total_blocks count bm.total_blocks
        bm.next_free_block bm.next_free_block 0 with
    | some start =>
      exfalso
      have heq : (BlockManager.allocate_blocks count bm).1
          = .ok ((List.range count).map (fun j => (start + j) % bm.total_blocks)) := by
        rw [BlockManager.allocate_blocks, if_neg hc, hs]
      rw [heq] at h
      cases h
    | none =>
      have heq : BlockManager.allocate_blocks count bm = scatterLoop count bm [] := by
        rw [BlockManager.allocate_blocks, if_neg hc, hs]
      rw [heq] at h ⊢
      have hr := scatterLoop_error_restores count bm [] e h
      exact ⟨hr.1, hr.2⟩

/-- Witness for C7 on a 3-block manager with a single free block: a 2-block
request takes the scattered path, marks block 1, fails, and restores the
bitmap. -/
theorem scattered_failure_restores_free_set_witness :
    DfsError.insufficientSpace = DfsError.insufficientSpace
    ∧ (BlockManager.allocate_blocks 2 bmC7).2.block_bitmap = bmC7.block_bitmap :=
  scattered_failure_restores_free_set 2 bmC7 .insufficientSpace (by decide)

end DFS
